import Mathlib

/-!
A shallow embedding of the lifecycle core of `core/lib/src/rocket.rs`:
the phase-tagged `Rocket` value, the Building-stage builder operations
(`mount`, `register`, `manage`, `attach`, `reconfigure`), the `ignite`
finalizer, and the shutdown drain protocol (`try_wait_shutdown`, `_launch`).

Collaborators that live outside the provided source file (the fairing
pipeline internals, the URI `rebase` operation, the typed `Config` /
`SecretKey`, the router, and the managed-state container) are modelled
from the specification and are marked as such in their doc comments.
-/

namespace RocketModel

/-! ## Origins (URI paths)

An origin URI is a path plus an optional query.  The path is represented
as its list of parsed segments together with a trailing-slash flag; the
root path `/` is the empty segment list (with no trailing-slash flag
set).  URI parsing is external to the core, so a segment arrives already
classified as static text or a dynamic parameter (`<name>`). -/

inductive Seg where
  | stat : String → Seg
  | dyn : String → Seg
deriving DecidableEq, Repr

structure Origin where
  segments : List Seg
  trailingSlash : Bool
  query : Option String
deriving DecidableEq, Repr

/-- A mount base must contain no dynamic parameter segments. -/
def segmentIsDynamic : Seg → Bool
  | .stat _ => false
  | .dyn _ => true

/-- The root path `/`: no segments, no trailing slash, no query. -/
def Origin.root : Origin :=
  { segments := [], trailingSlash := false, query := none }

/-! ## Routes and catchers -/

structure Route where
  method : Nat
  uri : Origin
deriving DecidableEq, Repr

structure Catcher where
  code : Option Nat
  base : Origin
deriving DecidableEq, Repr

/-- Modelled from the spec: the effective-URI join performed by
`Route::rebase` (the route module is not part of the provided source).
Per §4.2 and the worked table in §8 / the `mount` doc comment: a route
whose path is exactly the root path takes the base's path verbatim
(preserving the base's trailing slash) while keeping its own query;
any other route path is appended to the base with exactly one slash at
the join point, keeping the route's own query and trailing slash. -/
def Route.rebase (base : Origin) (route : Route) : Route :=
  if route.uri.segments = [] then
    { route with uri := { segments := base.segments,
                          trailingSlash := base.trailingSlash,
                          query := route.uri.query } }
  else
    { route with uri := { segments := base.segments ++ route.uri.segments,
                          trailingSlash := route.uri.trailingSlash,
                          query := route.uri.query } }

/-- Modelled from the spec: catchers are scoped under the base with no
path joining beyond prefix association (§4.2). -/
def Catcher.rebase (base : Origin) (c : Catcher) : Catcher :=
  { c with base := base }

/-! ## Hooks (fairings) -/

/-- A hook registration: its identity (the fairing's type), whether it is
a singleton, and a payload distinguishing separate attachments. -/
structure Hook where
  identity : Nat
  singleton : Bool
  payload : Nat
deriving DecidableEq, Repr

/-- Modelled from the spec: `Fairings::add` (the fairing module is not
part of the provided source).  Attaching a singleton removes any prior
hook of the same identity and appends the new one at the end of the
pipeline; a non-singleton hook is simply appended (§3, confirmed by the
`fairings` doc examples in the provided source). -/
def Fairings.add (pipeline : List Hook) (h : Hook) : List Hook :=
  if h.singleton then
    pipeline.filter (fun g => g.identity ≠ h.identity) ++ [h]
  else
    pipeline ++ [h]

/-! ## Configuration -/

structure ShutdownConfig where
  grace : Nat
  mercy : Nat
deriving DecidableEq, Repr

/-- Modelled from the spec: the secret key held by the typed `Config`
(the config module is not part of the provided source).  A key is either
the known-weak zero key, an explicitly provided key, or an auto-generated
ephemeral key. -/
inductive SecretKey where
  | zero : SecretKey
  | provided : Nat → SecretKey
  | ephemeral : Nat → SecretKey
deriving DecidableEq, Repr

def SecretKey.is_provided : SecretKey → Bool
  | .provided _ => true
  | _ => false

def SecretKey.is_zero : SecretKey → Bool
  | .zero => true
  | _ => false

structure Config where
  profile : String
  secret_key : SecretKey
  shutdown : ShutdownConfig
deriving DecidableEq, Repr

/-- The designated debug profile (`Config::DEBUG_PROFILE`). -/
def Config.debugProfile : String := "debug"

/-- Modelled from the spec: the configuration-source collaborator (§6)
exposes exactly one operation the core consumes at finalization,
"extract typed value or error"; a figment is therefore represented by
its extraction outcome. -/
structure Figment where
  parse : Option Config
deriving DecidableEq, Repr

/-- Modelled from the spec: `Config::figment()`, the default provider. -/
def Config.defaultFigment : Figment :=
  { parse := some { profile := Config.debugProfile
                    secret_key := SecretKey.zero
                    shutdown := { grace := 2000000, mercy := 3000000 } } }

/-! ## The Building-stage state -/

/-- The `Building` phase state: configuration source plus the accumulated
collections (routes, catchers, hooks, managed values).  Managed values
are a heterogeneous map from type identity to one owned value per type. -/
structure Building where
  figment : Figment
  routes : List Route
  catchers : List Catcher
  fairings : List Hook
  state : List (Nat × Nat)
deriving DecidableEq, Repr

/-- Modelled from the spec: `Building::default()` (the phase module is
not part of the provided source) — a fresh Building value with the
default configuration source and empty collections (§3). -/
def Building.default : Building :=
  { figment := Config.defaultFigment, routes := [], catchers := [],
    fairings := [], state := [] }

/-! ## Builder operations -/

/-- Embeds `Rocket::reconfigure`: replaces the configuration provider
wholesale (the early diagnostic re-initialization is a logging side
effect and is not modelled). -/
def Building.reconfigure (r : Building) (provider : Figment) : Building :=
  { r with figment := provider }

/-- Embeds `Rocket::attach`: appends the fairing to the pipeline via
`Fairings::add`. -/
def Building.attach (r : Building) (h : Hook) : Building :=
  { r with fairings := Fairings.add r.fairings h }

/-- The identity of the default `Shield` singleton fairing attached by
`Rocket::custom`. -/
def shieldIdentity : Nat := 0

/-- Modelled from the spec: `Shield::default()` is a singleton fairing. -/
def shieldHook : Hook :=
  { identity := shieldIdentity, singleton := true, payload := 0 }

/-- Embeds `Rocket::custom`: a default Building value, reconfigured with
the supplied provider, with the default `Shield` attached. -/
def Rocket.custom (provider : Figment) : Building :=
  (Building.default.reconfigure provider).attach shieldHook

/-- Embeds `Rocket::build`: `custom` with the default figment. -/
def Rocket.build : Building :=
  Rocket.custom Config.defaultFigment

/-- Embeds `Rocket::load`: validates the base (a static origin with no
dynamic segments; a malformed or dynamic base aborts the process, here
`none`), drops the base's query with a warning, then pushes each item
rebased onto the (already query-stripped) base.  Malformedness beyond
dynamic segments is a property of URI parsing, which happens before this
model's structured `Origin` input. -/
def Building.load {T : Type} (r : Building) (base : Origin) (items : List T)
    (m : Origin → T → T) (push : Building → T → Building) : Option Building :=
  if base.segments.any segmentIsDynamic then
    none
  else
    let base' : Origin := { base with query := none }
    some (items.foldl (fun acc it => push acc (m base' it)) r)

/-- Embeds `Rocket::mount`: loads the routes, rebasing each onto the
base. -/
def Building.mount (r : Building) (base : Origin) (routes : List Route) :
    Option Building :=
  r.load base routes Route.rebase
    (fun b route => { b with routes := b.routes ++ [route] })

/-- Embeds `Rocket::register`: loads the catchers, scoping each under
the base. -/
def Building.register (r : Building) (base : Origin) (catchers : List Catcher) :
    Option Building :=
  r.load base catchers Catcher.rebase
    (fun b c => { b with catchers := b.catchers ++ [c] })

/-- Embeds `Rocket::manage` (the container's `set` is modelled from the
spec: insertion keyed by type identity fails — the source aborts the
process, here `none` — exactly when a value of that type identity is
already present). -/
def Building.manage (r : Building) (ty : Nat) (v : Nat) : Option Building :=
  if ty ∈ r.state.map Prod.fst then
    none
  else
    some { r with state := r.state ++ [(ty, v)] }

/-- Embeds `Rocket::state` on a Building value (the container's
`try_get` is modelled from the spec: the typed accessor returns the
value stored under the type identity, if any). -/
def Building.stateGet (r : Building) (ty : Nat) : Option Nat :=
  (r.state.find? (fun p => p.1 = ty)).map Prod.snd

/-! ## Later phase states -/

/-- The `Igniting` phase state: configuration source, hooks, frozen
managed state, the built router (holding the finalized routes and
catchers), and the validated typed config. -/
structure Igniting where
  figment : Figment
  fairings : List Hook
  state : List (Nat × Nat)
  frozen : Bool
  routerRoutes : List Route
  routerCatchers : List Catcher
  config : Config
deriving DecidableEq, Repr

/-- The `Orbiting` phase state: everything of `Igniting` plus the bound
endpoints. -/
structure Orbiting where
  endpoints : List Nat
  figment : Figment
  fairings : List Hook
  state : List (Nat × Nat)
  routerRoutes : List Route
  routerCatchers : List Catcher
  config : Config
deriving DecidableEq, Repr

/-- Embeds `Rocket::into_orbit`: carries every Igniting field plus the
bound endpoints. -/
def Igniting.into_orbit (r : Igniting) (endpoints : List Nat) : Orbiting :=
  { endpoints := endpoints, figment := r.figment, fairings := r.fairings,
    state := r.state, routerRoutes := r.routerRoutes,
    routerCatchers := r.routerCatchers, config := r.config }

/-- Embeds `Rocket::deorbit`: rebuilds an Igniting value from the
Orbiting fields (the managed state stays frozen). -/
def Orbiting.deorbit (r : Orbiting) : Igniting :=
  { figment := r.figment, fairings := r.fairings, state := r.state,
    frozen := true, routerRoutes := r.routerRoutes,
    routerCatchers := r.routerCatchers, config := r.config }

/-! ## Router collision detection -/

/-- Modelled from the spec: two routes collide when they have an
identical method and an equivalent effective path (§8); the query plays
no role. -/
def Route.collides (a b : Route) : Bool :=
  a.method = b.method ∧ a.uri.segments = b.uri.segments ∧
    a.uri.trailingSlash = b.uri.trailingSlash

/-- Modelled from the spec: two catchers collide when they have the same
code and the same base. -/
def Catcher.collides (a b : Catcher) : Bool :=
  a.code = b.code ∧ a.base = b.base

/-- All colliding pairs of a list, in order. -/
def collidingPairs {α : Type} (collide : α → α → Bool) : List α → List (α × α)
  | [] => []
  | x :: xs => (xs.filter (collide x)).map (fun y => (x, y))
      ++ collidingPairs collide xs

/-- Modelled from the spec: `Router::finalize` (the router module is not
part of the provided source) — detects path/method collisions among the
routes and among the catchers, reporting every conflicting pair (§4.4). -/
def Router.finalize (rs : List Route) (cs : List Catcher) :
    Except (List (Route × Route) × List (Catcher × Catcher)) Unit :=
  let rp := collidingPairs Route.collides rs
  let cp := collidingPairs Catcher.collides cs
  if rp.isEmpty && cp.isEmpty then .ok () else .error (rp, cp)

/-! ## Errors -/

inductive ErrorKind where
  | FailedFairings : List Hook → ErrorKind
  | ConfigError : ErrorKind
  | InsecureSecretKey : String → ErrorKind
  | Collisions : List (Route × Route) → List (Catcher × Catcher) → ErrorKind
  | SentinelAborts : List Nat → ErrorKind
  | Shutdown : Orbiting → ErrorKind
deriving DecidableEq, Repr

/-! ## The ignite finalizer

`Rocket::ignite` is embedded as a function that, besides its result,
records the ordered trace of steps it performed.  The behavior of the
external collaborators it invokes — the attached ignite fairings
(`Fairings::handle_ignite`), the pipeline audit (`Fairings::audit`),
ephemeral secret-key generation (`SecretKey::generate`), and the
sentinel query (`sentinel::query`) — is supplied through an environment,
since those live outside the provided source file. -/

inductive Step where
  | fairingsStep | auditStep | configStep | secretStep
  | collisionsStep | freezeStep | sentinelsStep
deriving DecidableEq, Repr

/-- The canonical order of ignite steps. -/
def igniteSteps : List Step :=
  [.fairingsStep, .auditStep, .configStep, .secretStep,
   .collisionsStep, .freezeStep, .sentinelsStep]

/-- The canonical prefix of `igniteSteps` ending at a given step. -/
def stepsUpTo : Step → List Step
  | .fairingsStep => [.fairingsStep]
  | .auditStep => [.fairingsStep, .auditStep]
  | .configStep => [.fairingsStep, .auditStep, .configStep]
  | .secretStep => [.fairingsStep, .auditStep, .configStep, .secretStep]
  | .collisionsStep =>
      [.fairingsStep, .auditStep, .configStep, .secretStep, .collisionsStep]
  | .freezeStep =>
      [.fairingsStep, .auditStep, .configStep, .secretStep,
       .collisionsStep, .freezeStep]
  | .sentinelsStep => igniteSteps

/-- The step at which a given ignite error is raised. -/
def ErrorKind.step : ErrorKind → Step
  | .FailedFairings _ => .auditStep
  | .ConfigError => .configStep
  | .InsecureSecretKey _ => .secretStep
  | .Collisions _ _ => .collisionsStep
  | .SentinelAborts _ => .sentinelsStep
  | .Shutdown _ => .fairingsStep

/-- The external collaborators `Rocket::ignite` invokes. -/
structure IgniteEnv where
  /-- `Fairings::handle_ignite`: runs the ignite fairings sequentially,
  each receiving and returning the in-progress instance. -/
  handleIgnite : Building → Building
  /-- `Fairings::audit`: `some fs` reports the failed fairings. -/
  audit : List Hook → Option (List Hook)
  /-- `SecretKey::generate()`: fresh ephemeral key material, if any. -/
  generate : Option Nat
  /-- `sentinel::query`: `some s` reports the aborting sentinels. -/
  sentinelQuery : Igniting → Option (List Nat)
  /-- Whether the `secrets` crate feature is compiled in. -/
  secretsEnabled : Bool

/-- Embeds the secret-key check of `Rocket::ignite` (the `secrets`
feature gate and the extracted config): a missing explicit secret is
fatal outside the debug profile; in the debug profile a zero key is
replaced by a freshly generated ephemeral key, falling back to the zero
key when generation fails. -/
def checkSecret (secretsEnabled : Bool) (generate : Option Nat)
    (config : Config) : Except ErrorKind Config :=
  if secretsEnabled && !config.secret_key.is_provided then
    if config.profile ≠ Config.debugProfile then
      .error (.InsecureSecretKey config.profile)
    else if config.secret_key.is_zero then
      .ok { config with
            secret_key := (generate.map SecretKey.ephemeral).getD .zero }
    else
      .ok config
  else
    .ok config

/-- The Igniting value assembled at the end of `Rocket::ignite`: managed
state frozen, router holding the accumulated routes and catchers. -/
def igniteAssemble (r : Building) (config : Config) : Igniting :=
  { figment := r.figment, fairings := r.fairings,
    state := r.state, frozen := true,
    routerRoutes := r.routes, routerCatchers := r.catchers,
    config := config }

/-- Embeds `Rocket::ignite` (instrumented with a step trace): runs the
ignite fairings, audits the pipeline, extracts the typed config, checks
the secret key, builds the router and checks collisions, freezes the
managed state, then queries the sentinels; the first failure returns a
single tagged error and no Ignite-stage value. -/
def ignite (env : IgniteEnv) (r0 : Building) :
    List Step × Except ErrorKind Igniting :=
  let r := env.handleIgnite r0
  match env.audit r.fairings with
  | some failed => (stepsUpTo .auditStep, .error (.FailedFairings failed))
  | none =>
    match r.figment.parse with
    | none => (stepsUpTo .configStep, .error .ConfigError)
    | some config =>
      match checkSecret env.secretsEnabled env.generate config with
      | .error e => (stepsUpTo .secretStep, .error e)
      | .ok config =>
        match Router.finalize r.routes r.catchers with
        | .error (rp, cp) =>
            (stepsUpTo .collisionsStep, .error (.Collisions rp cp))
        | .ok _ =>
          match env.sentinelQuery (igniteAssemble r config) with
          | some aborts =>
              (stepsUpTo .sentinelsStep, .error (.SentinelAborts aborts))
          | none => (igniteSteps, .ok (igniteAssemble r config))

/-! ## The shutdown drain protocol

`Rocket::try_wait_shutdown` is embedded over an external reference-count
observation `count : Nat → Nat`, where `count k` is the strong count of
the shared running instance at the k-th check instant (k sleeps having
been performed).  The shutdown fairings are spawned fire-and-forget
before the drain loop and race with it; they do not influence the timers
and are not modelled. -/

/-- The short fixed pause (250 microseconds) in the drain schedule. -/
def settleWait : Nat := 250

/-- The fixed drain schedule: settle pause, grace, pause, mercy, final
fixed pause (four settle waits). -/
def shutdownSchedule (c : ShutdownConfig) : List Nat :=
  [settleWait, c.grace, settleWait, c.mercy, settleWait * 4]

/-- The drain loop's actually-slept periods: at each iteration the loop
first checks uniqueness (strong count = 1) and breaks, otherwise sleeps
the next scheduled period. -/
def sleptPeriods (count : Nat → Nat) : List Nat → Nat → List Nat
  | [], _ => []
  | p :: rest, k =>
      if count k = 1 then [] else p :: sleptPeriods count rest (k + 1)

/-- Embeds `Rocket::try_wait_shutdown` (instrumented with the slept
periods): runs the drain loop over the schedule, then attempts
`Arc::try_unwrap` — success (sole ownership) deorbits and returns the
Ignite-stage value, failure returns the still-shared running instance. -/
def tryWaitShutdown (count : Nat → Nat) (r : Orbiting) :
    List Nat × Except Orbiting Igniting :=
  (sleptPeriods count (shutdownSchedule r.config.shutdown) 0,
   if count (sleptPeriods count (shutdownSchedule r.config.shutdown) 0).length = 1
   then .ok r.deorbit
   else .error r)

/-- Embeds the tail of `Rocket::_launch`: the drain outcome of
`try_wait_shutdown` is surfaced to the caller of `launch`, the timeout
case wrapped as the `Shutdown` error carrying the still-running
instance. -/
def launchShutdown (count : Nat → Nat) (r : Orbiting) :
    Except ErrorKind Igniting :=
  match (tryWaitShutdown count r).2 with
  | .ok ig => .ok ig
  | .error orb => .error (.Shutdown orb)

/-! ## The launch event order

The pre-serve closure of `Rocket::_launch` spawns the shutdown signal
listener and only then runs the liftoff hooks; the serve loop itself
(inside `listen_and_serve`, outside the provided source) is modelled
from the spec. -/

inductive LEvent where
  | bindListener | enterOrbit | spawnShutdownListener
  | runLiftoff | serveRequest | observeShutdown
deriving DecidableEq, Repr

/-- Embeds the pre-serve closure of `Rocket::_launch`: the shutdown
signal listener is spawned first, then the liftoff hooks are run. -/
def preServeEvents : List LEvent :=
  [.spawnShutdownListener, .runLiftoff]

/-- Modelled from the spec: the serve loop dispatches requests until the
shutdown signal is observed; a signal that already fired when the
instance reached Orbiting short-circuits the loop, so no request is
served (§4.5, §5). -/
def serveEvents (signalAlreadyFired : Bool) (pending : Nat) : List LEvent :=
  if signalAlreadyFired then [] else List.replicate pending .serveRequest

/-- The event order of a launch: bind, enter orbit, the pre-serve
closure, the serve loop, then the observed shutdown. -/
def launchEvents (signalBeforeOrbit : Bool) (pending : Nat) : List LEvent :=
  [.bindListener, .enterOrbit] ++ preServeEvents
    ++ serveEvents signalBeforeOrbit pending ++ [.observeShutdown]

/-! ## Concrete sample values

Small concrete instances on which the general theorems below can be
evaluated. -/

def cfgDebug : Config :=
  { profile := "debug", secret_key := .zero, shutdown := { grace := 9, mercy := 11 } }

def cfgRelease : Config :=
  { profile := "release", secret_key := .zero, shutdown := { grace := 9, mercy := 11 } }

def bDebug : Building :=
  { figment := { parse := some cfgDebug }, routes := [], catchers := [],
    fairings := [], state := [] }

def bRelease : Building :=
  { figment := { parse := some cfgRelease }, routes := [], catchers := [],
    fairings := [], state := [] }

/-- An environment whose collaborators all succeed. -/
def envOk : IgniteEnv :=
  { handleIgnite := id, audit := fun _ => none, generate := some 7,
    sentinelQuery := fun _ => none, secretsEnabled := true }

/-- An environment whose pipeline audit fails. -/
def envAuditFail : IgniteEnv :=
  { envOk with audit := fun _ => some [] }

/-- An environment in which ephemeral secret-key generation fails. -/
def envNoGen : IgniteEnv :=
  { envOk with generate := none }

/-- A concrete Orbiting instance. -/
def orbW : Orbiting :=
  { endpoints := [1], figment := { parse := some cfgDebug }, fairings := [],
    state := [], routerRoutes := [], routerCatchers := [], config := cfgDebug }

/-! # Helper lemmas -/

theorem filter_ne_then_eq (i : Nat) (l : List Hook) :
    (l.filter (fun g => g.identity ≠ i)).filter (fun g => g.identity = i) = [] := by
  induction l with
  | nil => rfl
  | cons x xs ih =>
      by_cases hx : x.identity = i <;>
        simp [List.filter_cons, hx, ih]

theorem find?_append_of_none {α : Type} (p : α → Bool) (l₁ l₂ : List α)
    (h : l₁.find? p = none) : (l₁ ++ l₂).find? p = l₂.find? p := by
  induction l₁ with
  | nil => rfl
  | cons x xs ih =>
      rw [List.cons_append, List.find?_cons]
      rw [List.find?_cons] at h
      cases hp : p x with
      | true => rw [hp] at h; cases h
      | false => rw [hp] at h; exact ih h

theorem find?_append_of_some {α : Type} (p : α → Bool) (l₁ l₂ : List α) (a : α)
    (h : l₁.find? p = some a) : (l₁ ++ l₂).find? p = some a := by
  induction l₁ with
  | nil => cases h
  | cons x xs ih =>
      rw [List.cons_append, List.find?_cons]
      rw [List.find?_cons] at h
      cases hp : p x with
      | true => rw [hp] at h; exact h
      | false => rw [hp] at h; exact ih h

theorem find?_fst_eq_none (ty : Nat) (l : List (Nat × Nat))
    (h : ty ∉ l.map Prod.fst) : l.find? (fun q => q.1 = ty) = none := by
  rw [List.find?_eq_none]
  intro q hq
  simp only [decide_eq_true_eq]
  intro hq1
  exact h (List.mem_map.mpr ⟨q, hq, hq1⟩)

theorem foldl_pushRoute (f : Route → Route) (items : List Route) :
    ∀ (r : Building),
      items.foldl (fun acc it => { acc with routes := acc.routes ++ [f it] }) r
        = { r with routes := r.routes ++ items.map f } := by
  induction items with
  | nil => intro r; simp
  | cons x xs ih =>
      intro r
      simp [List.foldl_cons, ih]

/-! # Claim theorems -/

/-- C6: for every Building-stage pipeline, attaching two singleton hooks
of the same identity leaves exactly one hook of that identity — the
second-attached one — positioned at the end of the pipeline (the old
entry removed, the new one appended); non-singleton hooks accumulate in
attach order. -/
theorem attach_singleton_replaces (p : List Hook) (h1 h2 : Hook)
    (hs1 : h1.singleton = true) (hs2 : h2.singleton = true)
    (hid : h1.identity = h2.identity) :
    Fairings.add (Fairings.add p h1) h2
        = p.filter (fun g => g.identity ≠ h2.identity) ++ [h2]
    ∧ (Fairings.add (Fairings.add p h1) h2).filter
        (fun g => g.identity = h2.identity) = [h2]
    ∧ (Fairings.add (Fairings.add p h1) h2).getLast? = some h2
    ∧ (∀ (q : List Hook) (h : Hook), h.singleton = false →
        Fairings.add q h = q ++ [h]) := by
  have key : Fairings.add (Fairings.add p h1) h2
      = p.filter (fun g => g.identity ≠ h2.identity) ++ [h2] := by
    simp only [Fairings.add, hs1, hs2, if_pos, List.filter_append,
      List.filter_filter]
    rw [hid]
    simp [Bool.and_self, hid]
  refine ⟨key, ?_, ?_, ?_⟩
  · rw [key, List.filter_append, filter_ne_then_eq]
    simp
  · rw [key]
    exact List.getLast?_concat _
  · intro q h hns
    simp [Fairings.add, hns]

theorem attach_singleton_replaces_witness :
    Fairings.add (Fairings.add [Hook.mk 5 false 0] (Hook.mk 3 true 0)) (Hook.mk 3 true 1)
      = [Hook.mk 5 false 0, Hook.mk 3 true 1]
    ∧ (Fairings.add (Fairings.add [Hook.mk 5 false 0] (Hook.mk 3 true 0))
        (Hook.mk 3 true 1)).getLast? = some (Hook.mk 3 true 1) :=
  ⟨by
    rw [(attach_singleton_replaces [Hook.mk 5 false 0] (Hook.mk 3 true 0)
      (Hook.mk 3 true 1) rfl rfl rfl).1]
    decide,
   (attach_singleton_replaces [Hook.mk 5 false 0] (Hook.mk 3 true 0)
      (Hook.mk 3 true 1) rfl rfl rfl).2.2.1⟩

/-- C7: in the Building stage, `manage` fails fatally exactly when a
value of the same type identity is already managed; after a successful
`manage` of a type the stored value is retrievable, managing the same
type again fails, and a value of a distinct type is managed and
retrieved independently. -/
theorem manage_duplicate_and_get (r : Building) (ty ty' v v' : Nat) :
    (r.manage ty v = none ↔ ty ∈ r.state.map Prod.fst)
    ∧ (∀ r1, r.manage ty v = some r1 →
        r1.stateGet ty = some v
        ∧ (∀ w, r1.manage ty w = none)
        ∧ (ty' ≠ ty → ∀ r2, r1.manage ty' v' = some r2 →
            r2.stateGet ty = some v ∧ r2.stateGet ty' = some v')) := by
  constructor
  · by_cases hmem : ty ∈ r.state.map Prod.fst <;>
      simp [Building.manage, hmem]
  · intro r1 h1
    by_cases hmem : ty ∈ r.state.map Prod.fst
    · simp [Building.manage, hmem] at h1
    · simp only [Building.manage, hmem, if_neg, if_false,
        Option.some.injEq, not_false_eq_true] at h1
      have hfind : r1.state.find? (fun q => q.1 = ty) = some (ty, v) := by
        rw [← h1]
        rw [find?_append_of_none _ _ _ (find?_fst_eq_none ty r.state hmem)]
        simp [List.find?_cons]
      refine ⟨?_, ?_, ?_⟩
      · rw [Building.stateGet, hfind]
        rfl
      · intro w
        have : ty ∈ r1.state.map Prod.fst := by
          rw [← h1]
          simp
        simp [Building.manage, this]
      · intro hne r2 h2
        by_cases hmem' : ty' ∈ r1.state.map Prod.fst
        · simp [Building.manage, hmem'] at h2
        · simp only [Building.manage, hmem', if_neg, if_false,
            Option.some.injEq, not_false_eq_true] at h2
          constructor
          · rw [Building.stateGet, ← h2,
              find?_append_of_some _ _ _ _ hfind]
            rfl
          · rw [Building.stateGet, ← h2,
              find?_append_of_none _ _ _ (find?_fst_eq_none ty' r1.state hmem')]
            simp [List.find?_cons]

theorem manage_duplicate_and_get_witness :
    (Building.default.manage 1 10 = none ↔ (1 : Nat) ∈ Building.default.state.map Prod.fst)
    ∧ ({ Building.default with state := [(1, 10)] } : Building).stateGet 1 = some 10 :=
  ⟨(manage_duplicate_and_get Building.default 1 2 10 20).1,
   ((manage_duplicate_and_get Building.default 1 2 10 20).2
      { Building.default with state := [(1, 10)] } (by rfl)).1⟩

/-- C9 (counterexample): a Service Instance produced by `custom` does
not start with an empty hook pipeline — the default `Shield` singleton
fairing is attached —, refuting the claim that there are no hooks. -/
theorem custom_fairings_not_empty :
    (Rocket.custom Config.defaultFigment).fairings ≠ []
    ∧ (Rocket.custom Config.defaultFigment).fairings = [shieldHook] := by
  constructor
  · decide
  · rfl

/-- C9 (amended): a Service Instance produced by `build`/`custom p`
starts in the Building stage with configuration source `p` (the default
figment for `build`), no routes, no catchers, no managed values, and a
hook pipeline holding exactly the one default `Shield` singleton. -/
theorem custom_initial_state (p : Figment) :
    Rocket.custom p
      = { figment := p, routes := [], catchers := [],
          fairings := [shieldHook], state := [] }
    ∧ Rocket.build = Rocket.custom Config.defaultFigment :=
  ⟨rfl, rfl⟩

/-- C4 (counterexample): mounting a root-path route on a base that
carries a query does not preserve the base's query — the query is
dropped —, refuting "the effective path is the base verbatim,
preserving the base's trailing slash and query". -/
theorem mount_root_route_drops_base_query :
    (Building.default.mount
        { segments := [Seg.stat "foo"], trailingSlash := false, query := some "bar" }
        [{ method := 0, uri := Origin.root }]).map
          (fun b => b.routes.map (fun rt => rt.uri))
      = some [{ segments := [Seg.stat "foo"], trailingSlash := false, query := none }]
    ∧ ({ segments := [Seg.stat "foo"], trailingSlash := false, query := none } : Origin)
      ≠ { segments := [Seg.stat "foo"], trailingSlash := false, query := some "bar" } := by
  constructor
  · rfl
  · decide

/-- C4 (amended): for every valid base (no dynamic segments) and every
route, `mount` first drops the base's query; a route whose path is
exactly the root path gets an effective URI with the base's path
verbatim — preserving the base's trailing slash but not its query —
and the route's own query; any other route path is appended to the base
with exactly one slash at the join point, preserving the route's own
query and trailing slash. -/
theorem mount_effective_uri (r : Building) (base : Origin)
    (routes : List Route) (route : Route)
    (hvalid : base.segments.any segmentIsDynamic = false) :
    r.mount base routes
      = some { r with routes :=
          r.routes ++ routes.map (Route.rebase { base with query := none }) }
    ∧ (route.uri.segments = [] →
        (Route.rebase { base with query := none } route).uri
          = { segments := base.segments, trailingSlash := base.trailingSlash,
              query := route.uri.query })
    ∧ (route.uri.segments ≠ [] →
        (Route.rebase { base with query := none } route).uri
          = { segments := base.segments ++ route.uri.segments,
              trailingSlash := route.uri.trailingSlash,
              query := route.uri.query }) := by
  refine ⟨?_, ?_, ?_⟩
  · unfold Building.mount Building.load
    rw [hvalid]
    simp only [Bool.false_eq_true, if_false]
    rw [foldl_pushRoute]
  · intro hroot
    simp [Route.rebase, hroot]
  · intro hnonroot
    simp [Route.rebase, hnonroot]

theorem sleptPeriods_take (count : Nat → Nat) :
    ∀ (ps : List Nat) (k : Nat),
      ps.take (sleptPeriods count ps k).length = sleptPeriods count ps k := by
  intro ps
  induction ps with
  | nil => intro k; simp [sleptPeriods]
  | cons p rest ih =>
      intro k
      by_cases h : count k = 1 <;>
        simp [sleptPeriods, h, ih (k + 1)]

theorem sleptPeriods_length_le (count : Nat → Nat) (ps : List Nat) (k : Nat) :
    (sleptPeriods count ps k).length ≤ ps.length := by
  conv_lhs => rw [← sleptPeriods_take count ps k]
  rw [List.length_take]
  exact min_le_right _ _

theorem sleptPeriods_not_one (count : Nat → Nat) :
    ∀ (ps : List Nat) (k i : Nat), i < (sleptPeriods count ps k).length →
      count (k + i) ≠ 1 := by
  intro ps
  induction ps with
  | nil => intro k i hi; simp [sleptPeriods] at hi
  | cons p rest ih =>
      intro k i hi
      by_cases h : count k = 1
      · simp [sleptPeriods, h] at hi
      · rw [sleptPeriods, if_neg h, List.length_cons] at hi
        cases i with
        | zero => simpa using h
        | succ j =>
            have h2 := ih (k + 1) j (Nat.lt_of_succ_lt_succ hi)
            have harith : k + (j + 1) = k + 1 + j := by omega
            rw [harith]
            exact h2

theorem sleptPeriods_stop (count : Nat → Nat) :
    ∀ (ps : List Nat) (k : Nat),
      (sleptPeriods count ps k).length < ps.length →
      count (k + (sleptPeriods count ps k).length) = 1 := by
  intro ps
  induction ps with
  | nil => intro k h; simp [sleptPeriods] at h
  | cons p rest ih =>
      intro k h
      by_cases hc : count k = 1
      · simp [sleptPeriods, hc]
      · rw [sleptPeriods, if_neg hc, List.length_cons] at h ⊢
        have h2 := ih (k + 1) (Nat.lt_of_succ_lt_succ h)
        have harith : k + ((sleptPeriods count rest (k + 1)).length + 1)
            = k + 1 + (sleptPeriods count rest (k + 1)).length := by omega
        rw [harith]
        exact h2

/-- C2: on observing the shutdown signal, the drain loop follows the
fixed schedule — settle pause (250µs), the configured grace period, a
short pause (250µs), the configured mercy period, and a final fixed
pause (1000µs) — in that order (the slept periods form a prefix of the
schedule), sleeping only while some other shared reference to the
running instance survives, stopping early exactly when unique ownership
(strong count 1) is observed, and reporting success precisely when the
final ownership check finds the instance uniquely owned. -/
theorem try_wait_shutdown_drain (count : Nat → Nat) (r : Orbiting) :
    shutdownSchedule r.config.shutdown
        = [250, r.config.shutdown.grace, 250, r.config.shutdown.mercy, 1000]
    ∧ (tryWaitShutdown count r).1 <+: shutdownSchedule r.config.shutdown
    ∧ (∀ i, i < (tryWaitShutdown count r).1.length → count i ≠ 1)
    ∧ ((tryWaitShutdown count r).1.length < 5 →
        count (tryWaitShutdown count r).1.length = 1)
    ∧ (count (tryWaitShutdown count r).1.length = 1 ↔
        (tryWaitShutdown count r).2 = .ok r.deorbit) := by
  have hfst : (tryWaitShutdown count r).1
      = sleptPeriods count (shutdownSchedule r.config.shutdown) 0 := rfl
  refine ⟨rfl, ?_, ?_, ?_, ?_⟩
  · rw [hfst]
    exact ⟨_, by rw [← sleptPeriods_take count _ 0]; exact List.take_append_drop _ _⟩
  · intro i hi
    rw [hfst] at hi
    simpa using sleptPeriods_not_one count _ 0 i hi
  · intro hlt
    rw [hfst] at hlt ⊢
    simpa using sleptPeriods_stop count _ 0 hlt
  · constructor
    · intro hone
      rw [tryWaitShutdown] at hone ⊢
      simp only at hone
      simp [hone]
    · intro hok
      rw [tryWaitShutdown] at hok ⊢
      by_cases hone :
          count (sleptPeriods count (shutdownSchedule r.config.shutdown) 0).length = 1
      · exact hone
      · simp [hone] at hok

theorem try_wait_shutdown_drain_witness :
    (tryWaitShutdown (fun _ => 1) orbW).2 = .ok orbW.deorbit :=
  ((try_wait_shutdown_drain (fun _ => 1) orbW).2.2.2.2).mp (by rfl)

/-- C3: if shared references remain at every ownership check through the
full drain schedule, the launch-level shutdown result is the `Shutdown`
error value carrying the still-running Orbiting instance (no crash —
an ordinary error value); if uniqueness is reached at some check, the
result is `Ok` with the deorbited Ignite-stage instance owned by the
caller. -/
theorem launch_shutdown_outcome (count : Nat → Nat) (r : Orbiting) :
    ((∀ k, k ≤ 5 → count k ≠ 1) →
        launchShutdown count r = .error (.Shutdown r))
    ∧ ((∃ k, k ≤ 5 ∧ count k = 1) →
        launchShutdown count r = .ok r.deorbit) := by
  have hlen : (sleptPeriods count (shutdownSchedule r.config.shutdown) 0).length ≤ 5 :=
    sleptPeriods_length_le count _ 0
  constructor
  · intro hall
    have hone : count (sleptPeriods count (shutdownSchedule r.config.shutdown) 0).length ≠ 1 :=
      hall _ hlen
    rw [launchShutdown, tryWaitShutdown]
    simp [hone]
  · rintro ⟨k, hk, hone⟩
    have hfinal : count (sleptPeriods count (shutdownSchedule r.config.shutdown) 0).length = 1 := by
      by_contra hnot
      have hlen5 : (sleptPeriods count (shutdownSchedule r.config.shutdown) 0).length = 5 := by
        rcases Nat.lt_or_ge (sleptPeriods count (shutdownSchedule r.config.shutdown) 0).length 5 with h | h
        · exact absurd (by simpa using sleptPeriods_stop count _ 0 h) hnot
        · exact Nat.le_antisymm hlen h
      have : ∀ j, j ≤ 5 → count j ≠ 1 := by
        intro j hj
        rcases Nat.lt_or_ge j 5 with hj5 | hj5
        · have := sleptPeriods_not_one count (shutdownSchedule r.config.shutdown) 0 j
            (by rw [hlen5]; exact hj5)
          simpa using this
        · have hj' : j = 5 := Nat.le_antisymm hj hj5
          rw [hj', ← hlen5]
          exact hnot
      exact this k hk hone
    rw [launchShutdown, tryWaitShutdown]
    simp [hfinal]

theorem launch_shutdown_outcome_witness :
    launchShutdown (fun _ => 2) orbW = .error (.Shutdown orbW)
    ∧ launchShutdown (fun _ => 1) orbW = .ok orbW.deorbit :=
  ⟨(launch_shutdown_outcome (fun _ => 2) orbW).1 (fun k _ => by simp),
   (launch_shutdown_outcome (fun _ => 1) orbW).2 ⟨0, by decide, rfl⟩⟩

/-- C8: during launch the shutdown signal listener is spawned before the
liftoff hooks run (the order of the pre-serve closure of `_launch`), and
a signal already fired when the instance reaches Orbiting
short-circuits the serve loop: no request is served before the shutdown
is observed. -/
theorem launch_listener_before_liftoff (sig : Bool) (pending : Nat) :
    (∃ pre mid post, launchEvents sig pending
        = pre ++ LEvent.spawnShutdownListener
            :: (mid ++ LEvent.runLiftoff :: post))
    ∧ (sig = true →
        (launchEvents sig pending).count LEvent.serveRequest = 0
        ∧ launchEvents sig pending
            = [.bindListener, .enterOrbit, .spawnShutdownListener,
               .runLiftoff, .observeShutdown]) := by
  constructor
  · exact ⟨[.bindListener, .enterOrbit], [],
      serveEvents sig pending ++ [.observeShutdown], by
        simp [launchEvents, preServeEvents]⟩
  · rintro rfl
    have hev : launchEvents true pending
        = [.bindListener, .enterOrbit, .spawnShutdownListener,
           .runLiftoff, .observeShutdown] := rfl
    constructor
    · rw [hev]
      decide
    · exact hev

theorem launch_listener_before_liftoff_witness :
    (launchEvents true 3).count LEvent.serveRequest = 0
    ∧ launchEvents true 3
        = [.bindListener, .enterOrbit, .spawnShutdownListener,
           .runLiftoff, .observeShutdown] :=
  (launch_listener_before_liftoff true 3).2 rfl

theorem checkSecret_insecure (se : Bool) (gen : Option Nat) (config : Config)
    (hse : se = true) (hnp : config.secret_key.is_provided = false)
    (hprof : config.profile ≠ Config.debugProfile) :
    checkSecret se gen config = .error (.InsecureSecretKey config.profile) := by
  rw [checkSecret, hse]
  simp [hnp, hprof]

theorem checkSecret_error_shape (se : Bool) (gen : Option Nat)
    (config : Config) (e : ErrorKind)
    (h : checkSecret se gen config = .error e) :
    e = .InsecureSecretKey config.profile := by
  rw [checkSecret] at h
  by_cases c1 : (se && !config.secret_key.is_provided) = true
  · rw [if_pos c1] at h
    by_cases c2 : config.profile ≠ Config.debugProfile
    · rw [if_pos c2] at h
      exact (Except.error.inj h).symm
    · rw [if_neg c2] at h
      by_cases c3 : config.secret_key.is_zero = true
      · rw [if_pos c3] at h; cases h
      · rw [if_neg c3] at h; cases h
  · rw [if_neg c1] at h; cases h

theorem checkSecret_debug_ok (se : Bool) (gen : Option Nat) (config : Config)
    (hprof : config.profile = Config.debugProfile) :
    ∃ c, checkSecret se gen config = .ok c ∧
      (config.secret_key.is_zero = true → se = true →
        config.secret_key.is_provided = false →
        c = { config with
              secret_key := (gen.map SecretKey.ephemeral).getD .zero }) := by
  rw [checkSecret]
  by_cases c1 : (se && !config.secret_key.is_provided) = true
  · rw [if_pos c1, if_neg (by simp [hprof])]
    by_cases c3 : config.secret_key.is_zero = true
    · rw [if_pos c3]
      exact ⟨_, rfl, fun _ _ _ => rfl⟩
    · rw [if_neg c3]
      exact ⟨config, rfl, fun hz _ _ => absurd hz c3⟩
  · rw [if_neg c1]
    refine ⟨config, rfl, fun hz hse hnp => ?_⟩
    exact absurd (by rw [hse, hnp]; rfl) c1

theorem router_finalize_error (rs : List Route) (cs : List Catcher)
    (rp : List (Route × Route)) (cp : List (Catcher × Catcher))
    (h : Router.finalize rs cs = .error (rp, cp)) :
    rp = collidingPairs Route.collides rs
    ∧ cp = collidingPairs Catcher.collides cs := by
  rw [Router.finalize] at h
  split at h
  · cases h
  · cases h; exact ⟨rfl, rfl⟩

theorem ignite_audit_some (env : IgniteEnv) (r : Building) (failed : List Hook)
    (h : env.audit (env.handleIgnite r).fairings = some failed) :
    ignite env r = (stepsUpTo .auditStep, .error (.FailedFairings failed)) := by
  simp only [ignite, h]

theorem ignite_parse_none (env : IgniteEnv) (r : Building)
    (haudit : env.audit (env.handleIgnite r).fairings = none)
    (hparse : (env.handleIgnite r).figment.parse = none) :
    ignite env r = (stepsUpTo .configStep, .error .ConfigError) := by
  simp only [ignite, haudit, hparse]

theorem ignite_secret_error (env : IgniteEnv) (r : Building) (cfg : Config)
    (e : ErrorKind)
    (haudit : env.audit (env.handleIgnite r).fairings = none)
    (hparse : (env.handleIgnite r).figment.parse = some cfg)
    (hsecret : checkSecret env.secretsEnabled env.generate cfg = .error e) :
    ignite env r = (stepsUpTo .secretStep, .error e) := by
  simp only [ignite, haudit, hparse, hsecret]

theorem ignite_collision_error (env : IgniteEnv) (r : Building)
    (cfg cfg' : Config) (rp : List (Route × Route))
    (cp : List (Catcher × Catcher))
    (haudit : env.audit (env.handleIgnite r).fairings = none)
    (hparse : (env.handleIgnite r).figment.parse = some cfg)
    (hsecret : checkSecret env.secretsEnabled env.generate cfg = .ok cfg')
    (hrouter : Router.finalize (env.handleIgnite r).routes
        (env.handleIgnite r).catchers = .error (rp, cp)) :
    ignite env r = (stepsUpTo .collisionsStep, .error (.Collisions rp cp)) := by
  simp only [ignite, haudit, hparse, hsecret, hrouter]

theorem ignite_sentinel_error (env : IgniteEnv) (r : Building)
    (cfg cfg' : Config) (aborts : List Nat)
    (haudit : env.audit (env.handleIgnite r).fairings = none)
    (hparse : (env.handleIgnite r).figment.parse = some cfg)
    (hsecret : checkSecret env.secretsEnabled env.generate cfg = .ok cfg')
    (hrouter : Router.finalize (env.handleIgnite r).routes
        (env.handleIgnite r).catchers = .ok ())
    (hsent : env.sentinelQuery (igniteAssemble (env.handleIgnite r) cfg')
        = some aborts) :
    ignite env r = (stepsUpTo .sentinelsStep, .error (.SentinelAborts aborts)) := by
  simp only [ignite, haudit, hparse, hsecret, hrouter, hsent]

theorem ignite_ok_shape (env : IgniteEnv) (r : Building)
    (haudit : env.audit (env.handleIgnite r).fairings = none)
    (cfg cfg' : Config)
    (hparse : (env.handleIgnite r).figment.parse = some cfg)
    (hsecret : checkSecret env.secretsEnabled env.generate cfg = .ok cfg')
    (hrouter : Router.finalize (env.handleIgnite r).routes
        (env.handleIgnite r).catchers = .ok ())
    (hsent : env.sentinelQuery (igniteAssemble (env.handleIgnite r) cfg')
        = none) :
    ignite env r = (igniteSteps, .ok (igniteAssemble (env.handleIgnite r) cfg')) := by
  simp only [ignite, haudit, hparse, hsecret, hrouter, hsent]

theorem stepsUpTo_prefixOf (s : Step) : stepsUpTo s <+: igniteSteps := by
  cases s <;> decide

/-- C1: `ignite` performs its steps in the canonical order — ignite
fairings, pipeline audit, config extraction, secret check, router
build/collision check, managed-state freeze, sentinel query: the trace
it produces is always a prefix of that order, a failure at a step makes
the trace stop exactly there with a single tagged error and no
Ignite-stage value, success produces the full trace and an Ignite-stage
value whose router holds exactly the accumulated routes and catchers,
and the collision check examines exactly the full accumulated
(post-fairing) route and catcher collections. -/
theorem ignite_step_order (env : IgniteEnv) (r : Building) :
    ((ignite env r).1 <+: igniteSteps)
    ∧ (∀ e, (ignite env r).2 = .error e →
        (ignite env r).1 = stepsUpTo e.step)
    ∧ (∀ ig, (ignite env r).2 = .ok ig →
        (ignite env r).1 = igniteSteps
        ∧ ig.routerRoutes = (env.handleIgnite r).routes
        ∧ ig.routerCatchers = (env.handleIgnite r).catchers)
    ∧ (∀ rp cp, (ignite env r).2 = .error (.Collisions rp cp) →
        rp = collidingPairs Route.collides (env.handleIgnite r).routes
        ∧ cp = collidingPairs Catcher.collides (env.handleIgnite r).catchers) := by
  rcases haudit : env.audit (env.handleIgnite r).fairings with _ | failed
  case some =>
    rw [ignite_audit_some env r failed haudit]
    refine ⟨?_, ?_, ?_, ?_⟩
    · exact stepsUpTo_prefixOf Step.auditStep
    · rintro e he
      cases he
      rfl
    · rintro ig hig
      cases hig
    · rintro rp cp hc
      cases hc
  case none =>
  rcases hparse : (env.handleIgnite r).figment.parse with _ | cfg
  case none =>
    rw [ignite_parse_none env r haudit hparse]
    refine ⟨?_, ?_, ?_, ?_⟩
    · exact stepsUpTo_prefixOf Step.configStep
    · rintro e he
      cases he
      rfl
    · rintro ig hig
      cases hig
    · rintro rp cp hc
      cases hc
  case some =>
  rcases hsecret : checkSecret env.secretsEnabled env.generate cfg with e | cfg'
  case error =>
    rw [ignite_secret_error env r cfg e haudit hparse hsecret]
    have he := checkSecret_error_shape env.secretsEnabled env.generate cfg e hsecret
    refine ⟨?_, ?_, ?_, ?_⟩
    · exact stepsUpTo_prefixOf Step.secretStep
    · rintro e' he'
      cases he'
      rw [he]
      rfl
    · rintro ig hig
      cases hig
    · rintro rp cp hc
      rw [he] at hc
      cases hc
  case ok =>
  rcases hrouter : Router.finalize (env.handleIgnite r).routes
      (env.handleIgnite r).catchers with ⟨rp0, cp0⟩ | u
  case error =>
    rw [ignite_collision_error env r cfg cfg' rp0 cp0 haudit hparse hsecret hrouter]
    have hpairs := router_finalize_error _ _ rp0 cp0 hrouter
    refine ⟨?_, ?_, ?_, ?_⟩
    · exact stepsUpTo_prefixOf Step.collisionsStep
    · rintro e he
      cases he
      rfl
    · rintro ig hig
      cases hig
    · rintro rp cp hc
      cases hc
      exact hpairs
  case ok =>
  cases u
  rcases hsent : env.sentinelQuery (igniteAssemble (env.handleIgnite r) cfg')
      with _ | aborts
  case some =>
    rw [ignite_sentinel_error env r cfg cfg' aborts haudit hparse hsecret hrouter hsent]
    refine ⟨?_, ?_, ?_, ?_⟩
    · exact stepsUpTo_prefixOf Step.sentinelsStep
    · rintro e he
      cases he
      rfl
    · rintro ig hig
      cases hig
    · rintro rp cp hc
      cases hc
  case none =>
    rw [ignite_ok_shape env r haudit cfg cfg' hparse hsecret hrouter hsent]
    refine ⟨?_, ?_, ?_, ?_⟩
    · exact stepsUpTo_prefixOf Step.sentinelsStep
    · rintro e he
      cases he
    · rintro ig hig
      cases hig
      exact ⟨rfl, rfl, rfl⟩
    · rintro rp cp hc
      cases hc

theorem ignite_step_order_witness :
    (ignite envAuditFail bDebug).1
        = stepsUpTo (ErrorKind.FailedFairings []).step
    ∧ (ignite envOk bDebug).1 = igniteSteps :=
  ⟨(ignite_step_order envAuditFail bDebug).2.1 (.FailedFairings []) (by rfl),
   (((ignite_step_order envOk bDebug).2.2.1)
      (igniteAssemble bDebug { cfgDebug with secret_key := .ephemeral 7 })
      (by rfl)).1⟩

/-- C5: with secret-backed features enabled and no explicit secret key
provided, `ignite` fails at the secret-check step with the
`InsecureSecretKey` error (producing no instance) whenever the profile
is not the debug profile; in the debug profile it passes the secret
check (auto-generating an ephemeral key in place of a zero key) and
succeeds when the remaining steps succeed. -/
theorem ignite_secret_key_check (env : IgniteEnv) (r : Building) (cfg : Config)
    (hse : env.secretsEnabled = true)
    (haudit : env.audit (env.handleIgnite r).fairings = none)
    (hparse : (env.handleIgnite r).figment.parse = some cfg)
    (hnp : cfg.secret_key.is_provided = false) :
    (cfg.profile ≠ Config.debugProfile →
        (ignite env r).2 = .error (.InsecureSecretKey cfg.profile))
    ∧ (cfg.profile = Config.debugProfile →
        Router.finalize (env.handleIgnite r).routes
            (env.handleIgnite r).catchers = .ok () →
        (∀ ig, env.sentinelQuery ig = none) →
        ∃ ig, (ignite env r).2 = .ok ig) := by
  constructor
  · intro hprof
    have hsec :=
      checkSecret_insecure env.secretsEnabled env.generate cfg hse hnp hprof
    rw [ignite_secret_error env r cfg _ haudit hparse hsec]
  · intro hprof hrouter hsent
    obtain ⟨c, hok, _⟩ :=
      checkSecret_debug_ok env.secretsEnabled env.generate cfg hprof
    exact ⟨_, by rw [ignite_ok_shape env r haudit cfg c hparse hok hrouter (hsent _)]⟩

theorem ignite_secret_key_check_witness :
    (ignite envOk bRelease).2
        = .error (.InsecureSecretKey cfgRelease.profile)
    ∧ ∃ ig, (ignite envOk bDebug).2 = .ok ig :=
  ⟨(ignite_secret_key_check envOk bRelease cfgRelease rfl rfl rfl rfl).1
      (by decide),
   (ignite_secret_key_check envOk bDebug cfgDebug rfl rfl rfl rfl).2
      rfl rfl (fun _ => rfl)⟩

/-- C10: in the debug profile with secrets enabled, no provided secret
and a zero key, a failed ephemeral-key generation makes `ignite`
silently substitute the zero (known-weak) secret key and still succeed
(given the remaining steps succeed) instead of returning an error. -/
theorem ignite_generate_failure_zero_key (env : IgniteEnv) (r : Building)
    (cfg : Config)
    (hse : env.secretsEnabled = true)
    (haudit : env.audit (env.handleIgnite r).fairings = none)
    (hparse : (env.handleIgnite r).figment.parse = some cfg)
    (hnp : cfg.secret_key.is_provided = false)
    (hprof : cfg.profile = Config.debugProfile)
    (hz : cfg.secret_key.is_zero = true)
    (hgen : env.generate = none)
    (hrouter : Router.finalize (env.handleIgnite r).routes
        (env.handleIgnite r).catchers = .ok ())
    (hsent : ∀ ig, env.sentinelQuery ig = none) :
    ∃ ig, (ignite env r).2 = .ok ig ∧ ig.config.secret_key = .zero := by
  obtain ⟨c, hok, hch⟩ :=
    checkSecret_debug_ok env.secretsEnabled env.generate cfg hprof
  have hc : c = { cfg with
      secret_key := (env.generate.map SecretKey.ephemeral).getD .zero } :=
    hch hz hse hnp
  refine ⟨igniteAssemble (env.handleIgnite r) c, ?_, ?_⟩
  · rw [ignite_ok_shape env r haudit cfg c hparse hok hrouter (hsent _)]
  · rw [hc, hgen]
    rfl

theorem ignite_generate_failure_zero_key_witness :
    ∃ ig, (ignite envNoGen bDebug).2 = .ok ig
      ∧ ig.config.secret_key = .zero :=
  ignite_generate_failure_zero_key envNoGen bDebug cfgDebug
    rfl rfl rfl rfl rfl rfl rfl rfl (fun _ => rfl)

theorem mount_effective_uri_witness :
    Building.default.mount
        { segments := [Seg.stat "foo"], trailingSlash := true, query := none }
        [{ method := 0, uri := { segments := [Seg.stat "bar"], trailingSlash := false,
                                 query := some "q" } }]
      = some { Building.default with routes :=
          [{ method := 0, uri := { segments := [Seg.stat "foo", Seg.stat "bar"],
                                   trailingSlash := false, query := some "q" } }] } := by
  rw [(mount_effective_uri Building.default
      { segments := [Seg.stat "foo"], trailingSlash := true, query := none }
      [{ method := 0, uri := { segments := [Seg.stat "bar"], trailingSlash := false,
                               query := some "q" } }]
      { method := 0, uri := Origin.root } (by rfl)).1]
  rfl

end RocketModel
